import Mathlib

/-!
# Verification of the ZeruBackend fetch-and-reconcile pipeline

A shallow embedding of the core of the `ZeruBackend` repository:
the fetch orchestrator (`src/scripts/fetchData.js`), the scheduler
(`src/scripts/scheduler.js`), the EigenLayer adapter
(`src/services/eigenLayerService.js`) and the SQLite persistence layer
(`src/services/databaseService.js`).

Modelling conventions:
* JavaScript timestamps (`Date.now()`, ISO strings) are modelled as `Int`
  milliseconds since the epoch.
* Decimal amount strings are modelled as `Nat` (wei values) or, where the
  JavaScript code computes with numbers, as exact rationals `ℚ`; the one
  place where IEEE-754 double rounding is observable (the SQLite
  `CAST(. AS REAL)` aggregation) is modelled explicitly with a 53-bit
  round-to-nearest-even function.
* `Math.random()` is modelled as an explicit stream `Nat → String` of the
  hex strings successive calls would produce.
* Fallible operations are modelled with `Except String`, carrying the
  JavaScript error message.
-/

namespace ZeruBackend

/-! ## Orchestrator admission gate (`DataFetcher.fetchAllData`, fetchData.js 19-69)

`fetchAllData` guards on `this.isRunning`: a call that arrives while a
cycle is in flight logs and returns at once; otherwise the flag is set,
the body runs (awaiting `Promise.allSettled` over the five tasks), and a
`finally` clause clears the flag even when the body throws.  The model is
a state machine at event-loop granularity: between the guard test and the
assignment `this.isRunning = true` there is no `await`, so guard-and-set
is one atomic step (`OrchEvent.call`); store writes and the final
`finally` cleanup are further steps of the in-flight cycle. -/

/-- An event-loop turn relevant to the admission gate. -/
inductive OrchEvent where
  /-- A `fetchAllData()` invocation arrives: the synchronous turn that
  tests `this.isRunning` and, when clear, sets it. -/
  | call : OrchEvent
  /-- An in-flight cycle performs one Store write. -/
  | write : OrchEvent
  /-- The body of an in-flight cycle ends (all tasks settled, or the body
  threw: `threw = true`); the `finally` clause clears the flag. -/
  | finish (threw : Bool) : OrchEvent
deriving DecidableEq

/-- Observable orchestrator state: the `isRunning` flag, the number of
cycles in flight, the number of Store writes performed, and the number of
calls that returned immediately. -/
structure OrchState where
  isRunning : Bool
  active : Nat
  writes : Nat
  skipped : Nat
deriving DecidableEq

/-- The state before any call: `constructor` sets `this.isRunning = false`. -/
def orchInit : OrchState := { isRunning := false, active := 0, writes := 0, skipped := 0 }

/-- One step of the orchestrator state machine, read off fetchData.js:
lines 20-23 (the guard), line 26 (the flag set), lines 41-47 (writes
happen only inside an in-flight cycle), lines 66-68 (the `finally`
cleanup, run whether or not the body threw). -/
def orchStep (s : OrchState) : OrchEvent → OrchState
  | .call =>
      if s.isRunning then
        { s with skipped := s.skipped + 1 }
      else
        { s with isRunning := true, active := s.active + 1 }
  | .write =>
      if s.active > 0 then { s with writes := s.writes + 1 } else s
  | .finish _ =>
      if s.active > 0 then { s with isRunning := false, active := s.active - 1 } else s

/-- Run a sequence of event-loop turns from a state. -/
def orchRun (s : OrchState) : List OrchEvent → OrchState
  | [] => s
  | e :: es => orchRun (orchStep s e) es

/-- The gate invariant: the number of cycles in flight is `1` exactly when
the flag is set, `0` otherwise. -/
def orchInv (s : OrchState) : Prop :=
  s.active = if s.isRunning then 1 else 0

instance (s : OrchState) : Decidable (orchInv s) := by
  unfold orchInv; infer_instance

theorem orchInv_init : orchInv orchInit := by
  simp [orchInv, orchInit]

theorem orchInv_step (s : OrchState) (e : OrchEvent) (h : orchInv s) :
    orchInv (orchStep s e) := by
  cases e with
  | call =>
      by_cases hr : s.isRunning <;> simp [orchStep, orchInv, hr] at h ⊢ <;> omega
  | write =>
      by_cases ha : s.active > 0 <;> simp [orchStep, orchInv, ha] at h ⊢ <;> assumption
  | finish threw =>
      by_cases ha : s.active > 0 <;>
        simp [orchStep, orchInv, ha] at h ⊢ <;>
        by_cases hr : s.isRunning <;> simp [hr] at h ⊢ <;> omega

theorem orchInv_run (es : List OrchEvent) (s : OrchState) (h : orchInv s) :
    orchInv (orchRun s es) := by
  induction es generalizing s with
  | nil => exact h
  | cons e es ih => exact ih _ (orchInv_step s e h)

/-! ## Batch persistence loops (`DataFetcher.fetch*Data`, fetchData.js 74-191)

Each per-source task fetches a batch and writes it record by record inside
a `try`/`catch` that never leaves the loop: a rejected insert whose message
contains `UNIQUE constraint failed` is skipped silently (restaking and
validator batches only), any other rejection increments the batch error
counter, and iteration continues with the next record.  The write outcome
of each record is environment-determined (the SQLite callback), so the
loop is modelled as a fold over the list of per-record outcomes. -/

/-- `charsBeginWith pat cs` : the character list `cs` starts with `pat`. -/
def charsBeginWith : List Char → List Char → Bool
  | [], _ => true
  | _ :: _, [] => false
  | p :: ps, c :: cs => p = c && charsBeginWith ps cs

/-- `charsContain pat cs` : `pat` occurs contiguously inside `cs`. -/
def charsContain (pat : List Char) : List Char → Bool
  | [] => charsBeginWith pat []
  | c :: cs => charsBeginWith pat (c :: cs) || charsContain pat cs

/-- Model of JavaScript `s.includes(pat)`. -/
def strIncludes (s pat : String) : Bool :=
  charsContain pat.toList s.toList

/-- The marker SQLite puts in a unique-key rejection, tested at
fetchData.js line 87 and line 119. -/
def uniqueConstraintMsg : String := "UNIQUE constraint failed"

/-- One iteration of the per-record insert loop (fetchData.js 82-93):
a fulfilled insert increments `inserted`; a rejection is swallowed when
the batch is duplicate-tolerant and the message mentions the unique
constraint, and otherwise increments `errors`.  The loop never aborts. -/
def recordStep (dupTolerant : Bool) (acc : Nat × Nat) :
    Except String Nat → Nat × Nat
  | .ok _ => (acc.1 + 1, acc.2)
  | .error msg =>
      if dupTolerant && strIncludes msg uniqueConstraintMsg then acc
      else (acc.1, acc.2 + 1)

/-- The whole insert loop over a batch of per-record write outcomes,
returning `(insertedCount, errorCount)`. -/
def runBatch (dupTolerant : Bool) (outcomes : List (Except String Nat)) : Nat × Nat :=
  outcomes.foldl (recordStep dupTolerant) (0, 0)

/-- The structured value a per-source task resolves with: fetchData.js
line 96 / 128 / 157 / 186 on success, line 99 / 131 / 160 / 189 when the
task body threw. -/
inductive TaskResult where
  | ok (inserted : Nat) (errors : Nat)
  | failed (error : String)
deriving DecidableEq

/-- A per-source fetch-and-persist task (`fetchRestakingData` and friends):
either the fetch/iteration throws, giving `success: false` with the error
message, or the batch loop runs to completion and the task reports
`success: true` with the two counters. -/
def fetchSourceTask (dupTolerant : Bool)
    (input : Except String (List (Except String Nat))) : TaskResult :=
  match input with
  | .error msg => .failed msg
  | .ok outcomes => .ok (runBatch dupTolerant outcomes).1 (runBatch dupTolerant outcomes).2

/-- The environment of one cycle: the fetch-plus-write outcomes of each of
the five tasks passed to `Promise.allSettled` (fetchData.js 41-47). -/
structure TaskInputs where
  restaking : Except String (List (Except String Nat))
  validators : Except String (List (Except String Nat))
  rewards : Except String (List (Except String Nat))
  slashing : Except String (List (Except String Nat))
  lido : Except String Unit

/-- The settled results destructured at fetchData.js 35-47: one entry per
task, regardless of any individual outcome. -/
structure CycleSummary where
  restakingData : TaskResult
  validatorData : TaskResult
  rewardsData : TaskResult
  slashingData : TaskResult
  lidoData : Except String Unit

/-- The `Promise.allSettled` join of the five tasks.  The restaking and
validator batches are duplicate-tolerant (they test for
`UNIQUE constraint failed`, fetchData.js 87 and 119); the rewards and
slashing batches count every rejection (fetchData.js 150-153, 179-182). -/
def settleAllTasks (inp : TaskInputs) : CycleSummary :=
  { restakingData := fetchSourceTask true inp.restaking
    validatorData := fetchSourceTask true inp.validators
    rewardsData := fetchSourceTask false inp.rewards
    slashingData := fetchSourceTask false inp.slashing
    lidoData := inp.lido }

/-- An outcome counted as a successful insert. -/
def isOkOutcome : Except String Nat → Bool
  | .ok _ => true
  | .error _ => false

/-- An outcome counted as a batch error: a rejection that is not a
swallowed duplicate-key rejection. -/
def isCountedError (dupTolerant : Bool) : Except String Nat → Bool
  | .ok _ => false
  | .error msg => !(dupTolerant && strIncludes msg uniqueConstraintMsg)

theorem runBatch_foldl (dupTolerant : Bool) (outcomes : List (Except String Nat))
    (acc : Nat × Nat) :
    outcomes.foldl (recordStep dupTolerant) acc
      = (acc.1 + outcomes.countP isOkOutcome,
         acc.2 + outcomes.countP (isCountedError dupTolerant)) := by
  induction outcomes generalizing acc with
  | nil => simp
  | cons o os ih =>
      cases o with
      | ok n =>
          simp [List.foldl_cons, recordStep, ih, List.countP_cons, isOkOutcome,
            isCountedError]
          omega
      | error msg =>
          by_cases hdup : (dupTolerant && strIncludes msg uniqueConstraintMsg) = true
          · simp [List.foldl_cons, recordStep, hdup, ih, List.countP_cons, isOkOutcome,
              isCountedError]
          · simp [List.foldl_cons, recordStep, hdup, ih, List.countP_cons, isOkOutcome,
              isCountedError]
            omega

/-- C1: the in-progress flag of `fetchAllData` enforces mutual exclusion.
A call arriving while a cycle is in flight only increments the skip
counter — same writes, same number of in-flight cycles, flag untouched;
on every event trace from the initial state at most one cycle is ever in
flight; the `finally` cleanup clears the flag whether or not the body
threw; and a call finding the flag clear atomically sets it and admits a
fresh cycle before performing any write. -/
theorem C1_runCycle_mutual_exclusion :
    (∀ s : OrchState, s.isRunning = true →
        orchStep s .call = { s with skipped := s.skipped + 1 }) ∧
    (∀ es : List OrchEvent, (orchRun orchInit es).active ≤ 1) ∧
    (∀ (s : OrchState) (threw : Bool), 0 < s.active →
        (orchStep s (.finish threw)).isRunning = false) ∧
    (∀ s : OrchState, s.isRunning = false →
        (orchStep s .call).isRunning = true ∧
        (orchStep s .call).active = s.active + 1 ∧
        (orchStep s .call).writes = s.writes) := by
  refine ⟨?_, ?_, ?_, ?_⟩
  · intro s h
    simp [orchStep, h]
  · intro es
    have h := orchInv_run es orchInit orchInv_init
    unfold orchInv at h
    split at h <;> omega
  · intro s threw h
    simp [orchStep, h]
  · intro s h
    simp [orchStep, h]

theorem C1_runCycle_mutual_exclusion_witness :
    ((true : Bool) = true ∧
      orchStep { isRunning := true, active := 1, writes := 5, skipped := 0 } .call
        = { isRunning := true, active := 1, writes := 5, skipped := 1 }) ∧
    (0 < 1 ∧
      (orchStep { isRunning := true, active := 1, writes := 3, skipped := 2 }
        (.finish true)).isRunning = false) ∧
    ((false : Bool) = false ∧
      (orchStep orchInit .call).isRunning = true ∧
      (orchStep orchInit .call).active = 1 ∧
      (orchStep orchInit .call).writes = 0) :=
  ⟨⟨rfl, C1_runCycle_mutual_exclusion.1 _ rfl⟩,
   ⟨Nat.zero_lt_one,
    C1_runCycle_mutual_exclusion.2.2.1
      { isRunning := true, active := 1, writes := 3, skipped := 2 } true Nat.zero_lt_one⟩,
   ⟨rfl, C1_runCycle_mutual_exclusion.2.2.2 orchInit rfl⟩⟩

/-- C2: the five tasks are joined with settle-all semantics.  Each
component of the cycle summary depends only on its own task's input, so a
failure in any task cannot cancel or change another; a per-source task
whose body throws reports `success: false` with the message, and one
whose batch runs reports `success: true` with an inserted count and an
error count computed over the entire batch — non-duplicate write failures
are counted but never abort the remaining writes of the batch. -/
theorem C2_settle_all_isolation :
    (∀ inp inp' : TaskInputs, inp.restaking = inp'.restaking →
        (settleAllTasks inp).restakingData = (settleAllTasks inp').restakingData) ∧
    (∀ inp inp' : TaskInputs, inp.validators = inp'.validators →
        (settleAllTasks inp).validatorData = (settleAllTasks inp').validatorData) ∧
    (∀ inp inp' : TaskInputs, inp.rewards = inp'.rewards →
        (settleAllTasks inp).rewardsData = (settleAllTasks inp').rewardsData) ∧
    (∀ inp inp' : TaskInputs, inp.slashing = inp'.slashing →
        (settleAllTasks inp).slashingData = (settleAllTasks inp').slashingData) ∧
    (∀ inp inp' : TaskInputs, inp.lido = inp'.lido →
        (settleAllTasks inp).lidoData = (settleAllTasks inp').lidoData) ∧
    (∀ (d : Bool) (outcomes : List (Except String Nat)),
        fetchSourceTask d (.ok outcomes)
          = .ok (outcomes.countP isOkOutcome) (outcomes.countP (isCountedError d))) ∧
    (∀ (d : Bool) (msg : String), fetchSourceTask d (.error msg) = .failed msg) := by
  refine ⟨?_, ?_, ?_, ?_, ?_, ?_, ?_⟩
  · intro inp inp' h; simp [settleAllTasks, h]
  · intro inp inp' h; simp [settleAllTasks, h]
  · intro inp inp' h; simp [settleAllTasks, h]
  · intro inp inp' h; simp [settleAllTasks, h]
  · intro inp inp' h; simp [settleAllTasks, h]
  · intro d outcomes
    simp [fetchSourceTask, runBatch, runBatch_foldl]
  · intro d msg; rfl

theorem C2_settle_all_isolation_witness :
    ((Except.ok [Except.ok 7, Except.error "disk full"]
        : Except String (List (Except String Nat)))
      = .ok [Except.ok 7, Except.error "disk full"] ∧
    (settleAllTasks
        ⟨.ok [.ok 7, .error "disk full"], .error "boom", .ok [], .ok [], .ok ()⟩).restakingData
      = (settleAllTasks
        ⟨.ok [.ok 7, .error "disk full"], .ok [.ok 2], .error "x", .error "y",
          .error "z"⟩).restakingData) ∧
    (settleAllTasks
        ⟨.error "boom", .ok [.ok 2], .ok [], .ok [], .ok ()⟩).validatorData
      = (settleAllTasks
        ⟨.ok [], .ok [.ok 2], .error "x", .error "y", .error "z"⟩).validatorData ∧
    (settleAllTasks
        ⟨.error "boom", .error "bam", .ok [.error "oops"], .ok [], .ok ()⟩).rewardsData
      = (settleAllTasks
        ⟨.ok [], .ok [], .ok [.error "oops"], .error "y", .error "z"⟩).rewardsData ∧
    (settleAllTasks
        ⟨.error "boom", .error "bam", .error "x", .ok [.ok 1], .ok ()⟩).slashingData
      = (settleAllTasks
        ⟨.ok [], .ok [], .ok [], .ok [.ok 1], .error "z"⟩).slashingData ∧
    (settleAllTasks
        ⟨.error "boom", .error "bam", .error "x", .error "y", .ok ()⟩).lidoData
      = (settleAllTasks
        ⟨.ok [], .ok [], .ok [], .ok [], .ok ()⟩).lidoData :=
  ⟨⟨rfl, C2_settle_all_isolation.1 _ _ rfl⟩,
   C2_settle_all_isolation.2.1 _ _ rfl,
   C2_settle_all_isolation.2.2.1 _ _ rfl,
   C2_settle_all_isolation.2.2.2.1 _ _ rfl,
   C2_settle_all_isolation.2.2.2.2.1 _ _ rfl⟩

/-! ## EigenLayer adapter (`eigenLayerService.js`)

The adapter posts a GraphQL query and receives a JSON envelope.  The code
tests `if (response.data.errors)` — JavaScript truthiness, under which any
present array (even an empty one) is truthy — and throws into its own
`catch`, which returns the fixed mock dataset.  Reading
`response.data.data.deposits` when `data` is absent likewise throws into
the same `catch`.  Timestamps are `Int` milliseconds; `parseInt` /
`parseFloat` on the subgraph's decimal digit strings are modelled by an
exact digit fold (`parseNat`), rationals standing in for JavaScript
numbers. -/

/-- Numeric value of a decimal digit character. -/
def digitVal (c : Char) : Nat := c.toNat - 48

/-- Model of `parseInt(s)` on the subgraph's decimal digit strings. -/
def parseNat (s : String) : Nat :=
  s.toList.foldl (fun acc c => acc * 10 + digitVal c) 0

/-- A deposit entity as returned by the subgraph query
(eigenLayerService.js 19-38). -/
structure Deposit where
  id : String
  staker : String
  strategy : String
  shares : String
  amount : String
  blockNumber : String
  blockTimestamp : String
  transactionHash : String
deriving DecidableEq

/-- The normalized restaker record (eigenLayerService.js 70-80). -/
structure RestakerData where
  userAddress : String
  amountRestaked : String
  targetAVSValidatorAddress : String
  strategy : String
  blockNumber : Int
  transactionHash : String
  timestamp : Int
deriving DecidableEq

/-- An operator entity as returned by the subgraph query
(eigenLayerService.js 87-108); only the consumed fields are modelled.
`totalShares` is `Option` because the code guards it with `|| '0'`. -/
structure OperatorRecord where
  id : String
  operator : String
  totalShares : Option String
  metadataURI : String
deriving DecidableEq

/-- The normalized validator record (eigenLayerService.js 140-148). -/
structure ValidatorData where
  operatorAddress : String
  operatorId : String
  totalDelegatedStake : String
  validatorStatus : String
  metadataURI : String
deriving DecidableEq

/-- `processRestakingData` (eigenLayerService.js 70-80): each deposit is
mapped to a restaker record; the strategy contract doubles as the
validator reference, and the ISO timestamp is the on-chain block
timestamp in seconds times 1000. -/
def processRestakingData (deposits : List Deposit) : List RestakerData :=
  deposits.map fun d =>
    { userAddress := d.staker
      amountRestaked := d.amount
      targetAVSValidatorAddress := d.strategy
      strategy := d.strategy
      blockNumber := (parseNat d.blockNumber : Int)
      transactionHash := d.transactionHash
      timestamp := (parseNat d.blockTimestamp : Int) * 1000 }

/-- `processValidatorData` (eigenLayerService.js 140-148): status is
always defaulted to `active`; a missing `totalShares` becomes `0`. -/
def processValidatorData (operators : List OperatorRecord) : List ValidatorData :=
  operators.map fun o =>
    { operatorAddress := o.operator
      operatorId := o.id
      totalDelegatedStake := o.totalShares.getD "0"
      validatorStatus := "active"
      metadataURI := o.metadataURI }

/-- `getMockRestakingData` (eigenLayerService.js 216-237), the fixed
fallback dataset: two sample restakers.  `ethers.parseEther` literals are
expanded to their wei strings; `now` stands for `Date.now()`. -/
def getMockRestakingData (now : Int) : List RestakerData :=
  [{ userAddress := "0x742f6b5d9d4bb4e9d8a0e6a8b4e5d2a1f8c3e9d7"
     amountRestaked := "32500000000000000000"
     targetAVSValidatorAddress := "0x858646372CC42E1A627fcE94aa7A7033e7CF075A"
     strategy := "0x93c4b944D05dfe6df7645A86cd2206016c51564D"
     blockNumber := 18500000
     transactionHash := "0x123...abc"
     timestamp := now },
   { userAddress := "0x9a8f7e6d5c4b3a2f1e0d9c8b7a6f5e4d3c2b1a09"
     amountRestaked := "100000000000000000000"
     targetAVSValidatorAddress := "0x858646372CC42E1A627fcE94aa7A7033e7CF075A"
     strategy := "0x93c4b944D05dfe6df7645A86cd2206016c51564D"
     blockNumber := 18500100
     transactionHash := "0x456...def"
     timestamp := now - 3600000 }]

/-- `getMockValidatorData` (eigenLayerService.js 242-259), the fixed
fallback dataset: two sample validators. -/
def getMockValidatorData : List ValidatorData :=
  [{ operatorAddress := "0x858646372CC42E1A627fcE94aa7A7033e7CF075A"
     operatorId := "operator_1"
     totalDelegatedStake := "1500750000000000000000"
     validatorStatus := "active"
     metadataURI := "https://example.com/operator1-metadata.json" },
   { operatorAddress := "0x39053D51B77DC0d36036Fc1fCc8Cb819df8Ef37A"
     operatorId := "operator_2"
     totalDelegatedStake := "850250000000000000000"
     validatorStatus := "active"
     metadataURI := "https://example.com/operator2-metadata.json" }]

/-- The JSON envelope of a graph-query response: `errors` is `none` when
the field is absent or `null` (falsy in JavaScript) and `some l` when an
array is present — under JavaScript truthiness an array is truthy even
when empty.  `data` is `none` when the payload (or its selected field) is
absent. -/
structure GraphEnvelope (α : Type) where
  errors : Option (List String)
  data : Option α

/-- The outcome of the transport: a delivered envelope, or a failure such
as a timeout or network error thrown by the HTTP client. -/
inductive TransportResult (α : Type) where
  | ok (envelope : GraphEnvelope α)
  | failure (message : String)

/-- `fetchRestakingData` (eigenLayerService.js 17-65): a transport
failure, a present `errors` array (empty or not: the truthiness test at
line 55), or a missing `data` payload (line 59 throws reading
`.deposits`) all land in the `catch` and yield the mock dataset; otherwise
the deposits are normalized. -/
def fetchRestakingData (now : Int) (resp : TransportResult (List Deposit)) :
    List RestakerData :=
  match resp with
  | .failure _ => getMockRestakingData now
  | .ok env =>
      match env.errors with
      | some _ => getMockRestakingData now
      | none =>
          match env.data with
          | some deposits => processRestakingData deposits
          | none => getMockRestakingData now

/-- `fetchValidatorData` (eigenLayerService.js 85-135): same shape as
`fetchRestakingData`, with the operator query and the validator mock. -/
def fetchValidatorData (resp : TransportResult (List OperatorRecord)) :
    List ValidatorData :=
  match resp with
  | .failure _ => getMockValidatorData
  | .ok env =>
      match env.errors with
      | some _ => getMockValidatorData
      | none =>
          match env.data with
          | some operators => processValidatorData operators
          | none => getMockValidatorData

/-! ## Reward simulator (`EigenLayerService.simulateRewards`, eigenLayerService.js 182-211)

For each restaker the code takes
`stakedAmount = parseFloat(ethers.formatEther(amountRestaked))`, loops
`i = 0 .. 29`, computes `rewardAmount = stakedAmount * 0.0001`, and pushes
a reward only when `rewardAmount > 0.001`, stamping it with
`timestamp = new Date(currentTime - i * oneDay)` and a transaction hash
drawn from `Math.random()`.  JavaScript numbers are modelled as exact
rationals; `Math.random()` as an explicit stream `rng : Nat → String` of
the hex strings successive calls produce, consumed left to right exactly
when a reward is emitted. -/

/-- A derived reward record (eigenLayerService.js 197-205).
`rewardAmount` is the ether-denominated value that the code serializes as
a wei string via `ethers.parseEther(rewardAmount.toString())`. -/
structure RewardData where
  userAddress : String
  validatorAddress : String
  rewardAmount : ℚ
  rewardType : String
  blockNumber : Int
  transactionHash : String
  timestamp : Int
deriving DecidableEq

/-- `oneDay = 24 * 60 * 60 * 1000` milliseconds (line 185). -/
def oneDay : Int := 24 * 60 * 60 * 1000

/-- `dailyRewardRate = 0.0001` (line 189). -/
def dailyRewardRate : ℚ := 1 / 10000

/-- The materiality threshold `0.001` of the test at line 196. -/
def materialityThreshold : ℚ := 1 / 1000

/-- `parseFloat(ethers.formatEther(r.amountRestaked))`: the staked amount
in ether units (line 188), exact-rational idealization of the double. -/
def stakedAmountOf (r : RestakerData) : ℚ :=
  (parseNat r.amountRestaked : ℚ) / 10 ^ 18

/-- One pushed reward object (lines 197-205); `tx` is the freshly drawn
`Math.random()` hex string. -/
def mkReward (now : Int) (tx : String) (r : RestakerData) (i : Nat) (amount : ℚ) :
    RewardData :=
  { userAddress := r.userAddress
    validatorAddress := r.targetAVSValidatorAddress
    rewardAmount := amount
    rewardType := "restaking"
    blockNumber := r.blockNumber + (i : Int)
    transactionHash := tx
    timestamp := now - (i : Int) * oneDay }

/-- The (restaker, iteration) pairs that pass the materiality test, in
push order: the outer `forEach` over restakers and the inner
`for (let i = 0; i < 30; i++)` loop with the `> 0.001` guard. -/
def rewardEmits (restakers : List RestakerData) : List (RestakerData × Nat) :=
  restakers.flatMap fun r =>
    (List.range 30).filterMap fun i =>
      if stakedAmountOf r * dailyRewardRate > materialityThreshold then some (r, i)
      else none

/-- Assign the successive `Math.random()` outputs: the `k`-th emitted
reward consumes the `k`-th element of the stream. -/
def assignTxHashes (now : Int) (rng : Nat → String) :
    List (RestakerData × Nat) → Nat → List RewardData
  | [], _ => []
  | (r, i) :: rest, k =>
      mkReward now (rng k) r i (stakedAmountOf r * dailyRewardRate)
        :: assignTxHashes now rng rest (k + 1)

/-- `simulateRewards` (eigenLayerService.js 182-211). -/
def simulateRewards (now : Int) (rng : Nat → String)
    (restakers : List RestakerData) : List RewardData :=
  assignTxHashes now rng (rewardEmits restakers) 0

/-- The fields of a derived reward other than the synthetic transaction
identifier. -/
structure RewardObservable where
  userAddress : String
  validatorAddress : String
  rewardAmount : ℚ
  rewardType : String
  blockNumber : Int
  timestamp : Int
deriving DecidableEq

/-- Forget the synthetic transaction identifier of a reward record. -/
def dropTxId (rw : RewardData) : RewardObservable :=
  { userAddress := rw.userAddress
    validatorAddress := rw.validatorAddress
    rewardAmount := rw.rewardAmount
    rewardType := rw.rewardType
    blockNumber := rw.blockNumber
    timestamp := rw.timestamp }

theorem assignTxHashes_length (now : Int) (rng : Nat → String)
    (l : List (RestakerData × Nat)) (k : Nat) :
    (assignTxHashes now rng l k).length = l.length := by
  induction l generalizing k with
  | nil => rfl
  | cons p rest ih => cases p; simp [assignTxHashes, ih]

theorem assignTxHashes_map_dropTxId (now : Int) (rng rng' : Nat → String)
    (l : List (RestakerData × Nat)) (k k' : Nat) :
    (assignTxHashes now rng l k).map dropTxId
      = (assignTxHashes now rng' l k').map dropTxId := by
  induction l generalizing k k' with
  | nil => rfl
  | cons p rest ih =>
      cases p
      simp only [assignTxHashes, List.map_cons]
      exact congrArg₂ _ rfl (ih _ _)

theorem mem_assignTxHashes (now : Int) (rng : Nat → String)
    (l : List (RestakerData × Nat)) (k : Nat) (rw : RewardData)
    (h : rw ∈ assignTxHashes now rng l k) :
    ∃ p ∈ l, rw = mkReward now rw.transactionHash p.1 p.2
        (stakedAmountOf p.1 * dailyRewardRate) := by
  induction l generalizing k with
  | nil => simp [assignTxHashes] at h
  | cons p rest ih =>
      obtain ⟨r, i⟩ := p
      simp only [assignTxHashes, List.mem_cons] at h
      cases h with
      | inl h => exact ⟨(r, i), List.mem_cons_self _ _, by simp [h, mkReward]⟩
      | inr h =>
          obtain ⟨q, hq, hrw⟩ := ih (k + 1) h
          exact ⟨q, List.mem_cons_of_mem _ hq, hrw⟩

theorem mem_rewardEmits (restakers : List RestakerData)
    (p : RestakerData × Nat) (h : p ∈ rewardEmits restakers) :
    p.1 ∈ restakers ∧ p.2 < 30 ∧
      stakedAmountOf p.1 * dailyRewardRate > materialityThreshold := by
  simp only [rewardEmits, List.mem_flatMap, List.mem_filterMap] at h
  obtain ⟨r, hr, i, hi, hif⟩ := h
  by_cases hc : stakedAmountOf r * dailyRewardRate > materialityThreshold
  · simp only [if_pos hc] at hif
    cases hif
    exact ⟨hr, List.mem_range.mp hi, hc⟩
  · simp [if_neg hc] at hif

theorem rewardEmits_single (r : RestakerData)
    (h : stakedAmountOf r * dailyRewardRate > materialityThreshold) :
    rewardEmits [r] = (List.range 30).map (fun i => (r, i)) := by
  simp only [rewardEmits, List.flatMap_cons, List.flatMap_nil, List.append_nil]
  rw [List.filterMap_eq_map_iff_forall_eq_some.mpr]
  intro i _
  simp [if_pos h]

theorem rewardEmits_single_skip (r : RestakerData)
    (h : ¬ stakedAmountOf r * dailyRewardRate > materialityThreshold) :
    rewardEmits [r] = [] := by
  simp [rewardEmits, if_neg h]

theorem assignTxHashes_range (now : Int) (rng : Nat → String) (r : RestakerData)
    (n k : Nat) :
    assignTxHashes now rng ((List.range' k n).map (fun i => (r, i))) k
      = (List.range' k n).map
          (fun i => mkReward now (rng i) r i (stakedAmountOf r * dailyRewardRate)) := by
  induction n generalizing k with
  | zero => rfl
  | succ n ih =>
      rw [List.range'_succ]
      simp only [List.map_cons, assignTxHashes]
      rw [ih]

/-- Full characterization of `simulateRewards` on a single restaker that
passes the materiality test. -/
theorem simulateRewards_single (now : Int) (rng : Nat → String) (r : RestakerData)
    (h : stakedAmountOf r * dailyRewardRate > materialityThreshold) :
    simulateRewards now rng [r]
      = (List.range 30).map
          (fun i => mkReward now (rng i) r i (stakedAmountOf r * dailyRewardRate)) := by
  rw [simulateRewards, rewardEmits_single r h, List.range_eq_range']
  exact assignTxHashes_range now rng r 30 0

/-- The end-to-end scenario restaker of the spec: address `0xabc...` with
a staked amount equivalent to 100 units (100 ether in wei). -/
def restaker100 : RestakerData :=
  { userAddress := "0xabc0000000000000000000000000000000000000"
    amountRestaked := "100000000000000000000"
    targetAVSValidatorAddress := "0x858646372CC42E1A627fcE94aa7A7033e7CF075A"
    strategy := "0x93c4b944D05dfe6df7645A86cd2206016c51564D"
    blockNumber := 18500000
    transactionHash := "0xseed"
    timestamp := 0 }

theorem stakedAmountOf_restaker100 : stakedAmountOf restaker100 = 100 := by
  have h : parseNat restaker100.amountRestaked = 100000000000000000000 := rfl
  unfold stakedAmountOf
  rw [h]
  norm_num

theorem restaker100_material :
    stakedAmountOf restaker100 * dailyRewardRate > materialityThreshold := by
  rw [stakedAmountOf_restaker100]
  unfold dailyRewardRate materialityThreshold
  norm_num

/-- C4 fails as stated: the synthetic transaction identifier is drawn from
`Math.random()` at every emission (eigenLayerService.js 203), so two
invocations on the identical snapshot with a frozen clock — which consume
different outputs of the generator — differ in the `transactionHash`
field of the very first emitted reward. -/
theorem C4_counterexample :
    simulateRewards 0 (fun _ => "0x1111") [restaker100]
      ≠ simulateRewards 0 (fun _ => "0x2222") [restaker100] := by
  intro h
  have h1 := congrArg (fun l => l.head?) h
  simp only [simulateRewards_single 0 _ restaker100 restaker100_material] at h1
  rw [show (30 : Nat) = 29 + 1 from rfl, List.range_succ_eq_map] at h1
  simp only [List.map_cons, List.head?_cons, Option.some.injEq] at h1
  have h2 := congrArg RewardData.transactionHash h1
  simp only [mkReward] at h2
  exact absurd h2 (by decide)

/-- C4 amended: given an identical restaker snapshot and a frozen clock,
two invocations of `simulateRewards` produce reward batches that are
identical in every field except the synthetic transaction identifier,
which is freshly drawn from `Math.random()` on each emission. -/
theorem C4_simulateRewards_deterministic_modulo_txid
    (now : Int) (rng rng' : Nat → String) (restakers : List RestakerData) :
    (simulateRewards now rng restakers).map dropTxId
      = (simulateRewards now rng' restakers).map dropTxId :=
  assignTxHashes_map_dropTxId now rng rng' (rewardEmits restakers) 0 0

/-- C5: every emitted reward comes from a restaker of the input and an
iteration `i < 30`, carries that restaker's target validator address, the
per-period amount `stakedAmount * 0.0001`, and the timestamp `now - i`
periods; rewards below the `0.001` materiality threshold are skipped (only
amounts strictly above the threshold are emitted); a single restaker
yields exactly 30 rows when its per-period reward passes the test and 0
otherwise; and the 100-unit scenario restaker yields exactly 30 rows, all
with its target validator address, whose oldest timestamp is 29 periods
before `now`. -/
theorem C5_simulateRewards_thirty_periods :
    (∀ (now : Int) (rng : Nat → String) (restakers : List RestakerData)
        (rw : RewardData), rw ∈ simulateRewards now rng restakers →
        ∃ r ∈ restakers, ∃ i : Nat, i < 30 ∧
          stakedAmountOf r * dailyRewardRate > materialityThreshold ∧
          rw = mkReward now rw.transactionHash r i
                (stakedAmountOf r * dailyRewardRate)) ∧
    (∀ (now : Int) (rng : Nat → String) (restakers : List RestakerData)
        (rw : RewardData), rw ∈ simulateRewards now rng restakers →
          rw.rewardAmount > materialityThreshold) ∧
    (∀ (now : Int) (rng : Nat → String) (r : RestakerData),
        (simulateRewards now rng [r]).length
          = if stakedAmountOf r * dailyRewardRate > materialityThreshold
            then 30 else 0) ∧
    (∀ (now : Int) (rng : Nat → String),
        (simulateRewards now rng [restaker100]).length = 30 ∧
        (∀ rw ∈ simulateRewards now rng [restaker100],
            rw.validatorAddress = restaker100.targetAVSValidatorAddress ∧
            now - 29 * oneDay ≤ rw.timestamp) ∧
        (∃ rw ∈ simulateRewards now rng [restaker100],
            rw.timestamp = now - 29 * oneDay)) := by
  have hmem : ∀ (now : Int) (rng : Nat → String) (restakers : List RestakerData)
      (rw : RewardData), rw ∈ simulateRewards now rng restakers →
      ∃ r ∈ restakers, ∃ i : Nat, i < 30 ∧
        stakedAmountOf r * dailyRewardRate > materialityThreshold ∧
        rw = mkReward now rw.transactionHash r i
              (stakedAmountOf r * dailyRewardRate) := by
    intro now rng restakers rw h
    obtain ⟨p, hp, hrw⟩ := mem_assignTxHashes now rng (rewardEmits restakers) 0 rw h
    obtain ⟨hr, hi, hgt⟩ := mem_rewardEmits restakers p hp
    exact ⟨p.1, hr, p.2, hi, hgt, hrw⟩
  refine ⟨hmem, ?_, ?_, ?_⟩
  · intro now rng restakers rw h
    obtain ⟨r, _, i, _, hgt, hrw⟩ := hmem now rng restakers rw h
    rw [hrw]
    exact hgt
  · intro now rng r
    by_cases hc : stakedAmountOf r * dailyRewardRate > materialityThreshold
    · rw [if_pos hc, simulateRewards, rewardEmits_single r hc, assignTxHashes_length]
      simp
    · rw [if_neg hc, simulateRewards, rewardEmits_single_skip r hc]
      rfl
  · intro now rng
    have hchar := simulateRewards_single now rng restaker100 restaker100_material
    refine ⟨?_, ?_, ?_⟩
    · rw [hchar]; simp
    · intro rw hrw
      rw [hchar] at hrw
      obtain ⟨i, hi, hrfl⟩ := List.mem_map.mp hrw
      have hi30 : i < 30 := List.mem_range.mp hi
      constructor
      · rw [← hrfl]; rfl
      · rw [← hrfl]
        show now - 29 * oneDay ≤ now - (i : Int) * oneDay
        have : (i : Int) ≤ 29 := by exact_mod_cast Nat.lt_succ_iff.mp hi30
        have hday : (0 : Int) < oneDay := by unfold oneDay; norm_num
        nlinarith
    · refine ⟨mkReward now (rng 29) restaker100 29
        (stakedAmountOf restaker100 * dailyRewardRate), ?_, ?_⟩
      · rw [hchar]
        exact List.mem_map.mpr ⟨29, List.mem_range.mpr (by norm_num), rfl⟩
      · show now - (29 : Nat) * oneDay = now - 29 * oneDay
        norm_num

theorem C5_simulateRewards_thirty_periods_witness :
    (∃ r ∈ [restaker100], ∃ i : Nat, i < 30 ∧
        stakedAmountOf r * dailyRewardRate > materialityThreshold ∧
        (mkReward 0 "0xw" restaker100 0 (stakedAmountOf restaker100 * dailyRewardRate))
          = mkReward 0
              (mkReward 0 "0xw" restaker100 0
                (stakedAmountOf restaker100 * dailyRewardRate)).transactionHash r i
              (stakedAmountOf r * dailyRewardRate)) ∧
    (mkReward 0 "0xw" restaker100 0
        (stakedAmountOf restaker100 * dailyRewardRate)).rewardAmount
      > materialityThreshold ∧
    ((simulateRewards 0 (fun _ => "0xw") [restaker100]).length
      = if stakedAmountOf restaker100 * dailyRewardRate > materialityThreshold
        then 30 else 0) ∧
    (simulateRewards 0 (fun _ => "0xw") [restaker100]).length = 30 := by
  have hm : mkReward 0 "0xw" restaker100 0
      (stakedAmountOf restaker100 * dailyRewardRate)
        ∈ simulateRewards 0 (fun _ => "0xw") [restaker100] := by
    rw [simulateRewards_single 0 _ restaker100 restaker100_material]
    exact List.mem_map.mpr ⟨0, List.mem_range.mpr (by norm_num), rfl⟩
  refine ⟨C5_simulateRewards_thirty_periods.1 0 (fun _ => "0xw") [restaker100] _ hm,
    C5_simulateRewards_thirty_periods.2.1 0 (fun _ => "0xw") [restaker100] _ hm,
    C5_simulateRewards_thirty_periods.2.2.1 0 (fun _ => "0xw") restaker100,
    (C5_simulateRewards_thirty_periods.2.2.2 0 (fun _ => "0xw")).1⟩

/-- A concrete deposit entity used to exercise the success path of the
adapter. -/
def sampleDeposit : Deposit :=
  { id := "deposit-1"
    staker := "0x0000000000000000000000000000000000000aaa"
    strategy := "0x0000000000000000000000000000000000000bbb"
    shares := "1"
    amount := "5000000000000000000"
    blockNumber := "18600000"
    blockTimestamp := "1700000000"
    transactionHash := "0xcafe" }

/-- C6 fails as stated: the code tests `if (response.data.errors)` —
JavaScript truthiness — so a response whose `errors` field is a present
but EMPTY array is routed to the fallback path even though it carries a
`data` payload, where the claim requires the success path. -/
theorem C6_counterexample :
    fetchRestakingData 0
        (.ok { errors := some [], data := some [sampleDeposit] })
      = getMockRestakingData 0 ∧
    getMockRestakingData 0 ≠ processRestakingData [sampleDeposit] := by
  exact ⟨rfl, by decide⟩

/-- C6 amended: the adapter takes the fallback path exactly when the
`errors` field is present (any array, even empty) or the `data` payload is
missing; a response carrying a `data` payload and no `errors` field at
all is normalized and returned through the success path. -/
theorem C6_graphql_error_gate :
    (∀ (now : Int) (env : GraphEnvelope (List Deposit)) (l : List String),
        env.errors = some l →
          fetchRestakingData now (.ok env) = getMockRestakingData now) ∧
    (∀ (now : Int) (env : GraphEnvelope (List Deposit)) (ds : List Deposit),
        env.errors = none → env.data = some ds →
          fetchRestakingData now (.ok env) = processRestakingData ds) ∧
    (∀ (env : GraphEnvelope (List OperatorRecord)) (l : List String),
        env.errors = some l →
          fetchValidatorData (.ok env) = getMockValidatorData) ∧
    (∀ (env : GraphEnvelope (List OperatorRecord)) (ops : List OperatorRecord),
        env.errors = none → env.data = some ops →
          fetchValidatorData (.ok env) = processValidatorData ops) := by
  refine ⟨?_, ?_, ?_, ?_⟩
  · rintro now ⟨errs, dat⟩ l h
    cases h
    rfl
  · rintro now ⟨errs, dat⟩ ds he hd
    cases he
    cases hd
    rfl
  · rintro ⟨errs, dat⟩ l h
    cases h
    rfl
  · rintro ⟨errs, dat⟩ ops he hd
    cases he
    cases hd
    rfl

theorem C6_graphql_error_gate_witness :
    fetchRestakingData 7 (.ok { errors := some ["boom"], data := some [sampleDeposit] })
      = getMockRestakingData 7 ∧
    fetchRestakingData 7 (.ok { errors := none, data := some [sampleDeposit] })
      = processRestakingData [sampleDeposit] ∧
    fetchValidatorData (.ok { errors := some [], data := some [] })
      = getMockValidatorData ∧
    fetchValidatorData (.ok { errors := none, data := some [] })
      = processValidatorData [] :=
  ⟨C6_graphql_error_gate.1 7 _ ["boom"] rfl,
   C6_graphql_error_gate.2.1 7 _ [sampleDeposit] rfl rfl,
   C6_graphql_error_gate.2.2.1 _ [] rfl,
   C6_graphql_error_gate.2.2.2 _ [] rfl rfl⟩

/-- C7: on every transport failure — and likewise on an error payload or
a missing data payload — the adapters return their fixed fallback
datasets instead of raising: `fetchRestakingData` yields exactly the two
sample restakers and `fetchValidatorData` exactly the two sample
validators (both functions are total, so no failure escapes the adapter
boundary). -/
theorem C7_adapter_fallback :
    (∀ (now : Int) (msg : String),
        fetchRestakingData now (.failure msg) = getMockRestakingData now) ∧
    (∀ (now : Int) (env : GraphEnvelope (List Deposit)),
        env.errors.isSome = true ∨ env.data = none →
          fetchRestakingData now (.ok env) = getMockRestakingData now) ∧
    (∀ now : Int, (getMockRestakingData now).length = 2) ∧
    (∀ msg : String, fetchValidatorData (.failure msg) = getMockValidatorData) ∧
    (∀ env : GraphEnvelope (List OperatorRecord),
        env.errors.isSome = true ∨ env.data = none →
          fetchValidatorData (.ok env) = getMockValidatorData) ∧
    getMockValidatorData.length = 2 := by
  refine ⟨fun _ _ => rfl, ?_, fun _ => rfl, fun _ => rfl, ?_, rfl⟩
  · rintro now ⟨errs, dat⟩ (h | h)
    · obtain ⟨l, hl⟩ := Option.isSome_iff_exists.mp h
      cases hl
      rfl
    · cases h
      cases errs <;> rfl
  · rintro ⟨errs, dat⟩ (h | h)
    · obtain ⟨l, hl⟩ := Option.isSome_iff_exists.mp h
      cases hl
      rfl
    · cases h
      cases errs <;> rfl

theorem C7_adapter_fallback_witness :
    ((Option.isSome (some ["oops"]) = true ∨ (some [sampleDeposit] : Option (List Deposit)) = none) ∧
      fetchRestakingData 3 (.ok { errors := some ["oops"], data := some [sampleDeposit] })
        = getMockRestakingData 3) ∧
    ((Option.isSome (none : Option (List String)) = true ∨ (none : Option (List OperatorRecord)) = none) ∧
      fetchValidatorData (.ok { errors := none, data := none })
        = getMockValidatorData) :=
  ⟨⟨Or.inl rfl, C7_adapter_fallback.2.1 3 _ (Or.inl rfl)⟩,
   ⟨Or.inr rfl, C7_adapter_fallback.2.2.2.2.1 _ (Or.inr rfl)⟩⟩

/-! ## Persistence store (`databaseService.js`)

The SQLite schema (createTables, databaseService.js 34-113) gives every
table an `INTEGER PRIMARY KEY AUTOINCREMENT` id and `DATETIME DEFAULT
CURRENT_TIMESTAMP` columns.  `insertRestaker` / `insertValidator`
(116-136, 154-173) run `INSERT OR REPLACE`, whose SQLite semantics are:
delete any row violating the UNIQUE address constraint, then insert a
fresh row — unsupplied columns take their schema defaults and the
AUTOINCREMENT id is a never-reused fresh value.  Timestamps are `Int`
milliseconds as elsewhere. -/

/-- A row of the `restakers` table (databaseService.js 38-49). -/
structure RestakerRow where
  id : Nat
  userAddress : String
  amountRestaked : String
  targetAVSValidatorAddress : String
  strategy : String
  blockNumber : Int
  transactionHash : String
  timestamp : Int
  createdAt : Int
  updatedAt : Int
deriving DecidableEq

/-- A row of the `validators` table (databaseService.js 52-61). -/
structure ValidatorRow where
  id : Nat
  operatorAddress : String
  operatorId : String
  totalDelegatedStake : String
  validatorStatus : String
  metadataURI : String
  createdAt : Int
  updatedAt : Int
deriving DecidableEq

/-- A row of the `rewards` table (databaseService.js 76-86). -/
structure RewardRow where
  id : Nat
  userAddress : String
  validatorAddress : String
  rewardAmount : String
  rewardType : String
  blockNumber : Int
  transactionHash : String
  timestamp : Int
  createdAt : Int
deriving DecidableEq

/-- The persisted state relevant to the verified claims, with the next
AUTOINCREMENT id of each keyed table. -/
structure Store where
  restakers : List RestakerRow
  nextRestakerId : Nat
  validators : List ValidatorRow
  nextValidatorId : Nat
deriving DecidableEq

/-- SQLite `INSERT OR REPLACE` on a list of rows with a string key:
every row violating the unique key is deleted and the fresh row is
appended (rowid order). -/
def replaceInto {α : Type} (key : α → String) (row : α) (l : List α) : List α :=
  l.filter (fun x => !(key x == key row)) ++ [row]

/-- Number of stored rows carrying a given key. -/
def keyCount {α : Type} (key : α → String) (a : String) (l : List α) : Nat :=
  (l.filter (fun x => key x == a)).length

/-- The row `insertRestaker` writes: supplied columns from the record,
`updatedAt = CURRENT_TIMESTAMP` supplied explicitly (databaseService.js
120-121), `timestamp` and `createdAt` falling back to their schema
default `CURRENT_TIMESTAMP`, and a fresh AUTOINCREMENT id. -/
def mkRestakerRow (idv : Nat) (now : Int) (d : RestakerData) : RestakerRow :=
  { id := idv
    userAddress := d.userAddress
    amountRestaked := d.amountRestaked
    targetAVSValidatorAddress := d.targetAVSValidatorAddress
    strategy := d.strategy
    blockNumber := d.blockNumber
    transactionHash := d.transactionHash
    timestamp := now
    createdAt := now
    updatedAt := now }

/-- `insertRestaker` (databaseService.js 116-136). -/
def insertRestaker (now : Int) (d : RestakerData) (s : Store) : Store :=
  { s with
    restakers :=
      replaceInto RestakerRow.userAddress (mkRestakerRow s.nextRestakerId now d)
        s.restakers
    nextRestakerId := s.nextRestakerId + 1 }

/-- The row `insertValidator` writes: supplied columns plus explicit
`updatedAt`, with `createdAt` falling back to its schema default and a
fresh AUTOINCREMENT id (databaseService.js 154-173). -/
def mkValidatorRow (idv : Nat) (now : Int) (d : ValidatorData) : ValidatorRow :=
  { id := idv
    operatorAddress := d.operatorAddress
    operatorId := d.operatorId
    totalDelegatedStake := d.totalDelegatedStake
    validatorStatus := d.validatorStatus
    metadataURI := d.metadataURI
    createdAt := now
    updatedAt := now }

/-- `insertValidator` (databaseService.js 154-173). -/
def insertValidator (now : Int) (d : ValidatorData) (s : Store) : Store :=
  { s with
    validators :=
      replaceInto ValidatorRow.operatorAddress (mkValidatorRow s.nextValidatorId now d)
        s.validators
    nextValidatorId := s.nextValidatorId + 1 }

/-- The per-record loop of the restaking cycle over the concrete store
(fetchData.js 82-93 composed with databaseService.js 116-136); with
`INSERT OR REPLACE` every write resolves, so the loop performs one write
per record. -/
def persistRestakerBatch (now : Int) (records : List RestakerData) (s : Store) : Store :=
  records.foldl (fun st d => insertRestaker now d st) s

/-- The per-record loop of the validator cycle over the concrete store. -/
def persistValidatorBatch (now : Int) (records : List ValidatorData) (s : Store) : Store :=
  records.foldl (fun st d => insertValidator now d st) s

theorem length_filter_add_length_filter_not {α : Type} (p : α → Bool) (l : List α) :
    (l.filter p).length + (l.filter (fun x => !(p x))).length = l.length := by
  induction l with
  | nil => rfl
  | cons x xs ih => by_cases h : p x <;> simp [List.filter_cons, h] <;> omega

theorem filter_beq_filter_bne {α : Type} (key : α → String) (a : String) (l : List α) :
    (l.filter (fun x => !(key x == a))).filter (fun x => key x == a) = [] := by
  induction l with
  | nil => rfl
  | cons x xs ih => by_cases h : key x == a <;> simp [List.filter_cons, h, ih]

theorem filter_beq_of_ne {α : Type} (key : α → String) (a b : String) (hab : a ≠ b)
    (l : List α) :
    (l.filter (fun x => !(key x == b))).filter (fun x => key x == a)
      = l.filter (fun x => key x == a) := by
  induction l with
  | nil => rfl
  | cons x xs ih =>
      by_cases h : key x == b
      · have ha : (key x == a) = false := by
          have := eq_of_beq h
          simp [this, beq_iff_eq]
          exact fun hc => hab (hc ▸ rfl)
        simp [List.filter_cons, h, ha, ih]
      · simp [List.filter_cons, h, ih]

theorem keyCount_replaceInto_self {α : Type} (key : α → String) (row : α) (l : List α) :
    keyCount key (key row) (replaceInto key row l) = 1 := by
  unfold keyCount replaceInto
  rw [List.filter_append, filter_beq_filter_bne]
  simp

theorem keyCount_replaceInto_other {α : Type} (key : α → String) (row : α) (a : String)
    (ha : a ≠ key row) (l : List α) :
    keyCount key a (replaceInto key row l) = keyCount key a l := by
  unfold keyCount replaceInto
  rw [List.filter_append, filter_beq_of_ne key a (key row) ha]
  have : (key row == a) = false := by
    simp [beq_iff_eq]
    exact fun hc => ha hc.symm
  simp [List.filter_cons, this]

theorem length_replaceInto {α : Type} (key : α → String) (row : α) (l : List α)
    (h : keyCount key (key row) l = 1) :
    (replaceInto key row l).length = l.length := by
  unfold keyCount at h
  unfold replaceInto
  have := length_filter_add_length_filter_not (fun x => key x == key row) l
  simp only [List.length_append, List.length_cons, List.length_nil]
  omega

theorem getLast?_replaceInto {α : Type} (key : α → String) (row : α) (l : List α) :
    (replaceInto key row l).getLast? = some row :=
  List.getLast?_concat _

theorem restakerCount_insert_self (t : Int) (d : RestakerData) (s : Store) :
    keyCount RestakerRow.userAddress d.userAddress (insertRestaker t d s).restakers
      = 1 :=
  keyCount_replaceInto_self RestakerRow.userAddress
    (mkRestakerRow s.nextRestakerId t d) s.restakers

theorem restakerCount_insert_other (t : Int) (d : RestakerData) (s : Store)
    (a : String) (ha : a ≠ d.userAddress) :
    keyCount RestakerRow.userAddress a (insertRestaker t d s).restakers
      = keyCount RestakerRow.userAddress a s.restakers :=
  keyCount_replaceInto_other RestakerRow.userAddress
    (mkRestakerRow s.nextRestakerId t d) a ha s.restakers

theorem restaker_insert_length (t : Int) (d : RestakerData) (s : Store)
    (h : keyCount RestakerRow.userAddress d.userAddress s.restakers = 1) :
    (insertRestaker t d s).restakers.length = s.restakers.length :=
  length_replaceInto RestakerRow.userAddress
    (mkRestakerRow s.nextRestakerId t d) s.restakers h

theorem restakerCount_persist_preserved (t : Int) (records : List RestakerData)
    (s : Store) (a : String)
    (h : keyCount RestakerRow.userAddress a s.restakers = 1) :
    keyCount RestakerRow.userAddress a (persistRestakerBatch t records s).restakers
      = 1 := by
  induction records generalizing s with
  | nil => exact h
  | cons d rest ih =>
      apply ih
      by_cases hc : a = d.userAddress
      · rw [hc]
        exact restakerCount_insert_self t d s
      · rw [restakerCount_insert_other t d s a hc]
        exact h

theorem restakerCount_persist_mem (t : Int) (records : List RestakerData)
    (s : Store) (d : RestakerData) (hd : d ∈ records) :
    keyCount RestakerRow.userAddress d.userAddress
      (persistRestakerBatch t records s).restakers = 1 := by
  induction records generalizing s with
  | nil => cases hd
  | cons d0 rest ih =>
      rcases List.mem_cons.mp hd with h | h
      · subst h
        exact restakerCount_persist_preserved t rest (insertRestaker t d s) _
          (restakerCount_insert_self t d s)
      · exact ih (insertRestaker t d0 s) h

theorem restaker_persist_length_stable (t : Int) (records : List RestakerData)
    (s : Store)
    (h : ∀ d ∈ records, keyCount RestakerRow.userAddress d.userAddress s.restakers = 1) :
    (persistRestakerBatch t records s).restakers.length = s.restakers.length := by
  induction records generalizing s with
  | nil => rfl
  | cons d rest ih =>
      have hlen : (insertRestaker t d s).restakers.length = s.restakers.length :=
        restaker_insert_length t d s (h d (List.mem_cons_self _ _))
      have hrest : ∀ d' ∈ rest,
          keyCount RestakerRow.userAddress d'.userAddress
            (insertRestaker t d s).restakers = 1 := by
        intro d' hd'
        by_cases hc : d'.userAddress = d.userAddress
        · rw [hc]
          exact restakerCount_insert_self t d s
        · rw [restakerCount_insert_other t d s _ hc]
          exact h d' (List.mem_cons_of_mem _ hd')
      calc (persistRestakerBatch t (d :: rest) s).restakers.length
          = (insertRestaker t d s).restakers.length := ih _ hrest
        _ = s.restakers.length := hlen

theorem validatorCount_insert_self (t : Int) (d : ValidatorData) (s : Store) :
    keyCount ValidatorRow.operatorAddress d.operatorAddress
      (insertValidator t d s).validators = 1 :=
  keyCount_replaceInto_self ValidatorRow.operatorAddress
    (mkValidatorRow s.nextValidatorId t d) s.validators

theorem validatorCount_insert_other (t : Int) (d : ValidatorData) (s : Store)
    (a : String) (ha : a ≠ d.operatorAddress) :
    keyCount ValidatorRow.operatorAddress a (insertValidator t d s).validators
      = keyCount ValidatorRow.operatorAddress a s.validators :=
  keyCount_replaceInto_other ValidatorRow.operatorAddress
    (mkValidatorRow s.nextValidatorId t d) a ha s.validators

theorem validator_insert_length (t : Int) (d : ValidatorData) (s : Store)
    (h : keyCount ValidatorRow.operatorAddress d.operatorAddress s.validators = 1) :
    (insertValidator t d s).validators.length = s.validators.length :=
  length_replaceInto ValidatorRow.operatorAddress
    (mkValidatorRow s.nextValidatorId t d) s.validators h

theorem validatorCount_persist_preserved (t : Int) (records : List ValidatorData)
    (s : Store) (a : String)
    (h : keyCount ValidatorRow.operatorAddress a s.validators = 1) :
    keyCount ValidatorRow.operatorAddress a
      (persistValidatorBatch t records s).validators = 1 := by
  induction records generalizing s with
  | nil => exact h
  | cons d rest ih =>
      apply ih
      by_cases hc : a = d.operatorAddress
      · rw [hc]
        exact validatorCount_insert_self t d s
      · rw [validatorCount_insert_other t d s a hc]
        exact h

theorem validatorCount_persist_mem (t : Int) (records : List ValidatorData)
    (s : Store) (d : ValidatorData) (hd : d ∈ records) :
    keyCount ValidatorRow.operatorAddress d.operatorAddress
      (persistValidatorBatch t records s).validators = 1 := by
  induction records generalizing s with
  | nil => cases hd
  | cons d0 rest ih =>
      rcases List.mem_cons.mp hd with h | h
      · subst h
        exact validatorCount_persist_preserved t rest (insertValidator t d s) _
          (validatorCount_insert_self t d s)
      · exact ih (insertValidator t d0 s) h

theorem validator_persist_length_stable (t : Int) (records : List ValidatorData)
    (s : Store)
    (h : ∀ d ∈ records,
        keyCount ValidatorRow.operatorAddress d.operatorAddress s.validators = 1) :
    (persistValidatorBatch t records s).validators.length = s.validators.length := by
  induction records generalizing s with
  | nil => rfl
  | cons d rest ih =>
      have hlen : (insertValidator t d s).validators.length = s.validators.length :=
        validator_insert_length t d s (h d (List.mem_cons_self _ _))
      have hrest : ∀ d' ∈ rest,
          keyCount ValidatorRow.operatorAddress d'.operatorAddress
            (insertValidator t d s).validators = 1 := by
        intro d' hd'
        by_cases hc : d'.operatorAddress = d.operatorAddress
        · rw [hc]
          exact validatorCount_insert_self t d s
        · rw [validatorCount_insert_other t d s _ hc]
          exact h d' (List.mem_cons_of_mem _ hd')
      calc (persistValidatorBatch t (d :: rest) s).validators.length
          = (insertValidator t d s).validators.length := ih _ hrest
        _ = s.validators.length := hlen

/-- C8: upserts on the unique-keyed record types are idempotent.
Re-inserting a restaker or validator record with the same unique address
leaves exactly one stored row for that address and zero net new rows;
re-running a whole per-source batch on unchanged upstream data leaves the
table row count unchanged; and a batch whose writes all resolve — which
is what `INSERT OR REPLACE` yields on re-fetch of unchanged data, no
duplicate-key rejection ever surfacing to be counted — reports a
zero-error outcome. -/
theorem C8_upsert_idempotent :
    (∀ (s : Store) (d : RestakerData) (t1 t2 : Int),
        keyCount RestakerRow.userAddress d.userAddress
            (insertRestaker t2 d (insertRestaker t1 d s)).restakers = 1 ∧
        (insertRestaker t2 d (insertRestaker t1 d s)).restakers.length
          = (insertRestaker t1 d s).restakers.length) ∧
    (∀ (s : Store) (d : ValidatorData) (t1 t2 : Int),
        keyCount ValidatorRow.operatorAddress d.operatorAddress
            (insertValidator t2 d (insertValidator t1 d s)).validators = 1 ∧
        (insertValidator t2 d (insertValidator t1 d s)).validators.length
          = (insertValidator t1 d s).validators.length) ∧
    (∀ (t1 t2 : Int) (records : List RestakerData) (s : Store),
        (persistRestakerBatch t2 records
            (persistRestakerBatch t1 records s)).restakers.length
          = (persistRestakerBatch t1 records s).restakers.length) ∧
    (∀ (t1 t2 : Int) (records : List ValidatorData) (s : Store),
        (persistValidatorBatch t2 records
            (persistValidatorBatch t1 records s)).validators.length
          = (persistValidatorBatch t1 records s).validators.length) ∧
    (∀ outcomes : List (Except String Nat),
        (∀ o ∈ outcomes, isOkOutcome o = true) →
          runBatch true outcomes = (outcomes.length, 0)) := by
  refine ⟨?_, ?_, ?_, ?_, ?_⟩
  · intro s d t1 t2
    exact ⟨restakerCount_insert_self t2 d _,
      restaker_insert_length t2 d _ (restakerCount_insert_self t1 d s)⟩
  · intro s d t1 t2
    exact ⟨validatorCount_insert_self t2 d _,
      validator_insert_length t2 d _ (validatorCount_insert_self t1 d s)⟩
  · intro t1 t2 records s
    exact restaker_persist_length_stable t2 records _
      (fun d hd => restakerCount_persist_mem t1 records s d hd)
  · intro t1 t2 records s
    exact validator_persist_length_stable t2 records _
      (fun d hd => validatorCount_persist_mem t1 records s d hd)
  · intro outcomes h
    rw [runBatch, runBatch_foldl]
    have hok : outcomes.countP isOkOutcome = outcomes.length :=
      List.countP_eq_length.mpr h
    have herr : outcomes.countP (isCountedError true) = 0 := by
      rw [List.countP_eq_zero]
      intro o ho
      have := h o ho
      cases o with
      | ok n => simp [isCountedError]
      | error msg => simp [isOkOutcome] at this
    rw [hok, herr]
    simp

theorem C8_upsert_idempotent_witness :
    ((∀ o ∈ ([.ok 4, .ok 9] : List (Except String Nat)), isOkOutcome o = true) ∧
      runBatch true [.ok 4, .ok 9] = (2, 0)) :=
  ⟨by decide, C8_upsert_idempotent.2.2.2.2 [.ok 4, .ok 9] (by decide)⟩

/-- A concrete validator record used in witnesses. -/
def sampleValidator : ValidatorData :=
  { operatorAddress := "0x858646372CC42E1A627fcE94aa7A7033e7CF075A"
    operatorId := "operator_1"
    totalDelegatedStake := "1500750000000000000000"
    validatorStatus := "active"
    metadataURI := "https://example.com/operator1-metadata.json" }

/-- The freshly initialized store. -/
def emptyStore : Store :=
  { restakers := [], nextRestakerId := 1, validators := [], nextValidatorId := 1 }

/-- C10: `INSERT OR REPLACE` replaces the whole row.  The row written for
a restaker carries the schema-default current time in its unsupplied
`timestamp` and `createdAt` columns and a fresh AUTOINCREMENT id; writing
a record with the same unique address again installs a row whose id
differs from the replaced row's and whose creation metadata is the time
of the second write, while exactly one row holds the address.  Validators
behave the same with their unsupplied `createdAt`. -/
theorem C10_replace_resets_creation_metadata :
    (∀ (s : Store) (d : RestakerData) (t : Int),
        (insertRestaker t d s).restakers.getLast?
          = some (mkRestakerRow s.nextRestakerId t d) ∧
        (mkRestakerRow s.nextRestakerId t d).timestamp = t ∧
        (mkRestakerRow s.nextRestakerId t d).createdAt = t) ∧
    (∀ (s : Store) (d d' : RestakerData) (t t' : Int),
        d'.userAddress = d.userAddress →
          (insertRestaker t' d' (insertRestaker t d s)).restakers.getLast?
            = some (mkRestakerRow (s.nextRestakerId + 1) t' d') ∧
          (mkRestakerRow (s.nextRestakerId + 1) t' d').id
            ≠ (mkRestakerRow s.nextRestakerId t d).id ∧
          keyCount RestakerRow.userAddress d.userAddress
            (insertRestaker t' d' (insertRestaker t d s)).restakers = 1) ∧
    (∀ (s : Store) (d : ValidatorData) (t : Int),
        (insertValidator t d s).validators.getLast?
          = some (mkValidatorRow s.nextValidatorId t d) ∧
        (mkValidatorRow s.nextValidatorId t d).createdAt = t) ∧
    (∀ (s : Store) (d d' : ValidatorData) (t t' : Int),
        d'.operatorAddress = d.operatorAddress →
          (insertValidator t' d' (insertValidator t d s)).validators.getLast?
            = some (mkValidatorRow (s.nextValidatorId + 1) t' d') ∧
          keyCount ValidatorRow.operatorAddress d.operatorAddress
            (insertValidator t' d' (insertValidator t d s)).validators = 1) := by
  refine ⟨?_, ?_, ?_, ?_⟩
  · intro s d t
    exact ⟨getLast?_replaceInto _ _ _, rfl, rfl⟩
  · intro s d d' t t' h
    refine ⟨getLast?_replaceInto _ _ _, by simp [mkRestakerRow], ?_⟩
    rw [← h]
    exact restakerCount_insert_self t' d' _
  · intro s d t
    exact ⟨getLast?_replaceInto _ _ _, rfl⟩
  · intro s d d' t t' h
    refine ⟨getLast?_replaceInto _ _ _, ?_⟩
    rw [← h]
    exact validatorCount_insert_self t' d' _

theorem C10_replace_resets_creation_metadata_witness :
    (restaker100.userAddress = restaker100.userAddress ∧
      (insertRestaker 2000 restaker100 (insertRestaker 1000 restaker100 emptyStore)).restakers.getLast?
        = some (mkRestakerRow 2 2000 restaker100) ∧
      (mkRestakerRow 2 2000 restaker100).id ≠ (mkRestakerRow 1 1000 restaker100).id ∧
      keyCount RestakerRow.userAddress restaker100.userAddress
        (insertRestaker 2000 restaker100 (insertRestaker 1000 restaker100 emptyStore)).restakers
        = 1) ∧
    (sampleValidator.operatorAddress = sampleValidator.operatorAddress ∧
      (insertValidator 2000 sampleValidator
          (insertValidator 1000 sampleValidator emptyStore)).validators.getLast?
        = some (mkValidatorRow 2 2000 sampleValidator) ∧
      keyCount ValidatorRow.operatorAddress sampleValidator.operatorAddress
        (insertValidator 2000 sampleValidator
          (insertValidator 1000 sampleValidator emptyStore)).validators = 1) :=
  ⟨⟨rfl, C10_replace_resets_creation_metadata.2.1 emptyStore restaker100 restaker100
      1000 2000 rfl⟩,
   ⟨rfl, C10_replace_resets_creation_metadata.2.2.2 emptyStore sampleValidator
      sampleValidator 1000 2000 rfl⟩⟩

/-! ## Scheduler (`scheduler.js`)

The scheduler keeps a `Map` of named cron tasks and an `isRunning` flag.
`start()` (13-74) is a guarded no-op when already running; otherwise it
creates the main task on the configured cadence and the 5-minute health
task (both created stopped, `scheduled: false`), stores them under the
keys `main` and `healthCheck`, starts both, and sets the flag.  `stop()`
(79-96) is a guarded no-op when not running; otherwise it stops every
stored task, clears the map and clears the flag.  `triggerRefresh()`
(115-129) throws `Scheduler is not running` when the flag is clear and
otherwise awaits the orchestrator cycle. -/

/-- A `node-cron` task handle: its cadence expression and whether it is
currently started. -/
structure CronTask where
  expression : String
  running : Bool
deriving DecidableEq

/-- `Map.prototype.set`: replace the value under an existing key, append
otherwise. -/
def tasksSet (m : List (String × CronTask)) (k : String) (v : CronTask) :
    List (String × CronTask) :=
  if m.any (fun p => p.1 == k) then
    m.map (fun p => if p.1 == k then (k, v) else p)
  else m ++ [(k, v)]

/-- Scheduler state: the task map and the lifecycle flag. -/
structure SchedulerState where
  tasks : List (String × CronTask)
  isRunning : Bool
deriving DecidableEq

/-- State built by the constructor (scheduler.js 4-8). -/
def schedulerInit : SchedulerState := { tasks := [], isRunning := false }

/-- `start()` (scheduler.js 13-74): guarded no-op when running; otherwise
store the two tasks and start them (the `mainTask.start()` /
`healthCheckTask.start()` calls are folded into inserting already-started
handles) and set the flag. -/
def schedulerStart (refreshInterval : String) (s : SchedulerState) : SchedulerState :=
  if s.isRunning then s
  else
    { tasks :=
        tasksSet
          (tasksSet s.tasks "main" { expression := refreshInterval, running := true })
          "healthCheck" { expression := "*/5 * * * *", running := true }
      isRunning := true }

/-- `stop()` (scheduler.js 79-96): guarded no-op when not running;
otherwise stop every task, clear the map, clear the flag. -/
def schedulerStop (s : SchedulerState) : SchedulerState :=
  if s.isRunning then { tasks := [], isRunning := false } else s

/-- `triggerRefresh()` (scheduler.js 115-129): `InvalidState` error when
the scheduler is not running, otherwise the orchestrator cycle's own
outcome. -/
def triggerRefresh (cycle : Except String Unit) (s : SchedulerState) :
    Except String Unit :=
  if s.isRunning then cycle else .error "Scheduler is not running"

/-- Number of started timers stored under a given name. -/
def activeTimerCount (s : SchedulerState) (k : String) : Nat :=
  (s.tasks.filter (fun p => p.1 == k && p.2.running)).length

/-- C9: the timer set stays duplicate-free across the lifecycle.  A
`start()` while running is a no-op — in particular a second `start()`
right after a first leaves the state unchanged, with exactly one active
main timer and one active health timer; `stop()` on the running scheduler
leaves zero active timers; and `triggerRefresh()` while not running fails
with the invalid-state error. -/
theorem C9_scheduler_lifecycle :
    (∀ (s : SchedulerState) (e : String), s.isRunning = true →
        schedulerStart e s = s) ∧
    (∀ e1 e2 : String,
        schedulerStart e2 (schedulerStart e1 schedulerInit)
          = schedulerStart e1 schedulerInit ∧
        activeTimerCount (schedulerStart e2 (schedulerStart e1 schedulerInit)) "main"
          = 1 ∧
        activeTimerCount (schedulerStart e2 (schedulerStart e1 schedulerInit))
          "healthCheck" = 1 ∧
        (schedulerStart e2 (schedulerStart e1 schedulerInit)).tasks.length = 2) ∧
    (∀ e1 e2 : String,
        activeTimerCount (schedulerStop (schedulerStart e2
          (schedulerStart e1 schedulerInit))) "main" = 0 ∧
        activeTimerCount (schedulerStop (schedulerStart e2
          (schedulerStart e1 schedulerInit))) "healthCheck" = 0 ∧
        (schedulerStop (schedulerStart e2 (schedulerStart e1 schedulerInit))).tasks
          = []) ∧
    (∀ (cycle : Except String Unit) (s : SchedulerState), s.isRunning = false →
        triggerRefresh cycle s = .error "Scheduler is not running") := by
  refine ⟨?_, ?_, ?_, ?_⟩
  · intro s e h
    simp [schedulerStart, h]
  · intro e1 e2
    exact ⟨rfl, rfl, rfl, rfl⟩
  · intro e1 e2
    exact ⟨rfl, rfl, rfl⟩
  · intro cycle s h
    simp [triggerRefresh, h]

theorem C9_scheduler_lifecycle_witness :
    ((schedulerStart "*/30 * * * *" schedulerInit).isRunning = true ∧
      schedulerStart "*/10 * * * *" (schedulerStart "*/30 * * * *" schedulerInit)
        = schedulerStart "*/30 * * * *" schedulerInit) ∧
    (schedulerInit.isRunning = false ∧
      triggerRefresh (.ok ()) schedulerInit = .error "Scheduler is not running") :=
  ⟨⟨rfl, C9_scheduler_lifecycle.1 _ "*/10 * * * *" rfl⟩,
   ⟨rfl, C9_scheduler_lifecycle.2.2.2 (.ok ()) schedulerInit rfl⟩⟩

/-! ## Reward aggregation over REAL casts (`DatabaseService.getRewardsByAddress`, databaseService.js 236-295)

The total is computed by SQLite as `SUM(CAST(rewardAmount as REAL))`:
every 18-decimal wei amount string is first cast to an IEEE-754 binary64
value and the sum is accumulated (and in any case returned) as a binary64
value.  For integers this is rounding to the nearest multiple of the unit
in the last place of a 53-bit significand, round half to even; it is the
identity below `2^53` and lossy above. -/

/-- Bit length via explicit fuel so that the definition is structural;
`bitLenAux fuel n` is the bit length of `n` for `n < 2 ^ fuel`. -/
def bitLenAux : Nat → Nat → Nat
  | 0, _ => 0
  | fuel + 1, n => if n = 0 then 0 else bitLenAux fuel (n / 2) + 1

/-- Bit length of amounts up to `2^128` (far beyond any wei value). -/
def bitLen (n : Nat) : Nat := bitLenAux 128 n

/-- Round a nonnegative integer to the nearest IEEE-754 binary64 value
(round half to even): the value SQLite's `CAST(x AS REAL)` stores for an
integer-valued decimal string, exact below `2^53`. -/
def roundB64 (n : Nat) : Nat :=
  if n < 2 ^ 53 then n
  else
    let e := bitLen n - 53
    let q := n / 2 ^ e
    let r := n % 2 ^ e
    let half := 2 ^ (e - 1)
    let q' := if half < r ∨ (r = half ∧ q % 2 = 1) then q + 1 else q
    q' * 2 ^ e

/-- Binary64 addition of two doubles holding nonnegative integers. -/
def fladdB64 (a b : Nat) : Nat := roundB64 (a + b)

/-- `SUM(CAST(rewardAmount as REAL))`: each amount string cast to a
binary64, accumulated into a running binary64 total. -/
def sumCastReal (amounts : List String) : Nat :=
  amounts.foldl (fun acc a => fladdB64 acc (roundB64 (parseNat a))) 0

/-- The total of `getRewardsByAddress` (first query, databaseService.js
240-241): the REAL-cast sum over the rows of the address. -/
def rewardsTotalForAddress (rows : List RewardRow) (addr : String) : Nat :=
  sumCastReal ((rows.filter (fun row => row.userAddress == addr)).map
    (fun row => row.rewardAmount))

/-- The exact integer sum of the same rows — what the claim asserts the
code computes. -/
def exactRewardsTotal (rows : List RewardRow) (addr : String) : Nat :=
  (((rows.filter (fun row => row.userAddress == addr)).map
    (fun row => parseNat row.rewardAmount))).sum

/-- A stored reward of one whole token (`10^18` wei). -/
def rewardRowBig : RewardRow :=
  { id := 1
    userAddress := "0xabc0000000000000000000000000000000000000"
    validatorAddress := "0x858646372CC42E1A627fcE94aa7A7033e7CF075A"
    rewardAmount := "1000000000000000000"
    rewardType := "restaking"
    blockNumber := 18500000
    transactionHash := "0xbig"
    timestamp := 0
    createdAt := 0 }

/-- A stored reward of one wei. -/
def rewardRowOne : RewardRow :=
  { id := 2
    userAddress := "0xabc0000000000000000000000000000000000000"
    validatorAddress := "0x858646372CC42E1A627fcE94aa7A7033e7CF075A"
    rewardAmount := "1"
    rewardType := "restaking"
    blockNumber := 18500001
    transactionHash := "0xone"
    timestamp := 0
    createdAt := 0 }

/-- C3 fails on the code: `getRewardsByAddress` aggregates with
`SUM(CAST(rewardAmount as REAL))`, i.e. native binary64 floating point,
not wei-integer arithmetic.  For the two rewards `10^18` wei and `1` wei
the exact integer total `1000000000000000001` is not representable in a
binary64 (it needs 60 significand bits), so the computed total collapses
to `10^18` and differs from the exact sum. -/
theorem C3_sum_precision_loss :
    rewardsTotalForAddress [rewardRowBig, rewardRowOne]
        "0xabc0000000000000000000000000000000000000" = 1000000000000000000 ∧
    exactRewardsTotal [rewardRowBig, rewardRowOne]
        "0xabc0000000000000000000000000000000000000" = 1000000000000000001 ∧
    rewardsTotalForAddress [rewardRowBig, rewardRowOne]
        "0xabc0000000000000000000000000000000000000"
      ≠ exactRewardsTotal [rewardRowBig, rewardRowOne]
        "0xabc0000000000000000000000000000000000000" := by
  refine ⟨by decide, by decide, by decide⟩

end ZeruBackend
